import Mathlib

/-!
Shallow embedding of `pkasolver/data.py` (molecule-to-graph data pipeline).

Molecules, atoms and bonds are read-only external structures (rdkit); we model
exactly the fields the code reads: formal charge and an element payload per
atom, begin/end indices and a bond-type payload per bond, the property bag
(`GetPropsAsDict`) and the canonical SMILES string (`MolToSmiles`) per
molecule.  Python floats are modelled as exact rationals (ℚ); feature vectors
are lists of rationals; tensors are lists (of lists).  Python exceptions are
modelled with `Except`, and `print` diagnostics are collected into explicit
log lists so that error paths can be reasoned about.
-/

namespace Pkasolver

/-- An rdkit atom, restricted to the fields `data.py` reads:
`GetFormalCharge` and an opaque element payload used by feature functions. -/
structure Atom where
  element : Nat := 0
  formalCharge : Int := 0
deriving DecidableEq, Repr, Inhabited

/-- An rdkit bond: `GetBeginAtomIdx`, `GetEndAtomIdx` and an opaque
bond-type payload used by edge feature functions. -/
structure Bond where
  beginAtomIdx : Nat := 0
  endAtomIdx : Nat := 0
  bondType : Nat := 0
deriving DecidableEq, Repr, Inhabited

/-- A value in an rdkit property bag (`GetPropsAsDict`): numeric or string. -/
inductive PropVal where
  | num (q : ℚ)
  | str (s : String)
deriving DecidableEq, Repr

instance : Inhabited PropVal := ⟨.str ""⟩

/-- Numeric view of a property value (used where the code reads a float). -/
def PropVal.toQ : PropVal → ℚ
  | .num q => q
  | .str _ => 0

/-- Integer-index view of a property value (used where the code reads an
atom index from the property bag). -/
def PropVal.toIdx : PropVal → Nat
  | .num q => q.num.toNat
  | .str _ => 0

/-- String view of a property value. -/
def PropVal.toStr : PropVal → String
  | .num _ => ""
  | .str s => s

/-- An rdkit molecule, restricted to what `data.py` reads: the atom list
(`GetAtoms`, `GetAtomWithIdx`), the bond list (`GetBonds`), the property bag
(`GetPropsAsDict`) and the canonical SMILES (`MolToSmiles`). -/
structure Mol where
  atoms : List Atom := []
  bonds : List Bond := []
  props : List (String × PropVal) := []
  smiles : String := ""
deriving DecidableEq, Repr, Inhabited

/-- Python exceptions raised or caught by `data.py` (`valueError` models the
numpy error raised by `np.hstack` on an empty sequence of arrays). -/
inductive PyError where
  | keyError (k : String)
  | runtimeError (m : String)
  | assertionError (m : String)
  | valueError (m : String)
deriving DecidableEq, Repr

/-- `str(e)` for a modelled exception, as printed by the error paths. -/
def PyError.msg : PyError → String
  | .keyError k => k
  | .runtimeError m => m
  | .assertionError m => m
  | .valueError m => m

/-- `mol.GetAtomWithIdx(idx).GetFormalCharge()`. -/
def getFormalCharge (m : Mol) (idx : Nat) : Int :=
  (m.atoms.getD idx default).formalCharge

/-- The external `create_conjugate(mol, idx, pka, ignore_danger)` call from
`pkasolver.chem` (an external collaborator: only its output contract
matters), modelled as a parameter of the functions that invoke it. -/
def CreateConjugate : Type :=
  Mol → Nat → ℚ → Bool → Except PyError Mol

/-- A node feature function as stored in the `NODE_FEATURES` registry:
applied to an atom and the reaction-center index, yields a feature vector. -/
def NodeFeatureFn : Type := Atom → Nat → List ℚ

instance : Inhabited NodeFeatureFn := ⟨fun _ _ => []⟩

/-- An edge feature function as stored in the `EDGE_FEATURES` registry. -/
def EdgeFeatureFn : Type := Bond → List ℚ

instance : Inhabited EdgeFeatureFn := ⟨fun _ => []⟩

/-- Modelled from the spec: the feature vocabularies live in
`pkasolver/constants.py`, which is not part of the sources given; per the
spec, a vocabulary entry maps a feature name to a compute function producing
a categorical value from an atom (with the reaction-center index as context)
and to an enumerated value domain used to fix the one-hot width. -/
structure NodeFeatureEntry where
  domain : List ℚ
  compute : Atom → Nat → ℚ

instance : Inhabited NodeFeatureEntry := ⟨⟨[], fun _ _ => 0⟩⟩

/-- Modelled from the spec: one-hot encoding of a value over an enumerated
value domain; the encoding width equals the domain size. -/
def oneHotEncode (domain : List ℚ) (v : ℚ) : List ℚ :=
  domain.map (fun d => if d = v then 1 else 0)

/-- Modelled from the spec: the registered node feature function derived
from a vocabulary entry (one-hot over the entry's value domain). -/
def nodeFeatureFn (e : NodeFeatureEntry) : NodeFeatureFn :=
  fun atom atom_idx => oneHotEncode e.domain (e.compute atom atom_idx)

/-- `node_feat_values` / `edge_feat_values` as seen by
`calculate_nr_of_features`: feature name to enumerated value domain. -/
def featValuesOf (vocab : List (String × NodeFeatureEntry)) :
    List (String × List ℚ) :=
  vocab.map (fun p => (p.1, p.2.domain))

/-- The `NODE_FEATURES`-style registry derived from a vocabulary. -/
def featureFnsOf (vocab : List (String × NodeFeatureEntry)) :
    List (String × NodeFeatureFn) :=
  vocab.map (fun p => (p.1, nodeFeatureFn p.2))

/-- `calculate_nr_of_features(feature_list)` (data.py lines 252-263), with the
two global vocabularies passed explicitly.  Returns the accumulated one-hot
width, or the bare `RuntimeError()` the code raises. -/
def calculate_nr_of_features (node_feat_values edge_feat_values : List (String × List ℚ))
    (feature_list : List String) : Except PyError Nat :=
  if feature_list.all (fun elem => (List.lookup elem node_feat_values).isSome) then
    .ok (feature_list.foldl
      (fun i_n feat => i_n + ((List.lookup feat node_feat_values).getD []).length) 0)
  else if feature_list.all (fun elem => (List.lookup elem edge_feat_values).isSome) then
    .ok (feature_list.foldl
      (fun i_n feat => i_n + ((List.lookup feat edge_feat_values).getD []).length) 0)
  else
    .error (.runtimeError "")

/-- Key sequence of a Python dict comprehension over `feat_list`: duplicate
names are deduplicated, the first occurrence fixing the position. -/
def dictKeys : List String → List String
  | [] => []
  | x :: xs => x :: (dictKeys xs).filter (fun y => y != x)

/-- `make_features_dicts(all_features, feat_list)` (data.py lines 346-351):
the dict comprehension `\x7bx: all_features[x] for x in feat_list\x7d`, keyed
in first-occurrence order with duplicate names collapsed (dict semantics). -/
def make_features_dicts {β : Type} [Inhabited β] (all_features : List (String × β))
    (feat_list : List String) : List (String × β) :=
  (dictKeys feat_list).map (fun x => (x, (List.lookup x all_features).getD default))

/-- `make_nodes(mol, atom_idx, n_features)` (data.py lines 266-293): one row
per atom in the molecule's native atom order, each row the flattened
concatenation of the selected feature functions applied to (atom, atom_idx). -/
def make_nodes (mol : Mol) (atom_idx : Nat) (n_features : List (String × NodeFeatureFn)) :
    List (List ℚ) :=
  mol.atoms.map (fun atom => (n_features.map (fun feat => feat.2 atom atom_idx)).flatten)

/-- `make_edges_and_attr(mol, e_features)` (data.py lines 296-342): for each
bond two directed columns (begin→end then end→begin) are appended to the
edge index, and the bond's flattened feature vector is appended twice to the
edge attributes.  The edge index is modelled as the list of its columns.
For a bond-free molecule the edge list is empty and the final
`np.hstack(np.array(edges))` raises `ValueError`. -/
def make_edges_and_attr (mol : Mol) (e_features : List (String × EdgeFeatureFn)) :
    Except PyError (List (Nat × Nat) × List (List ℚ)) :=
  have edges := mol.bonds.flatMap (fun bond =>
    [(bond.beginAtomIdx, bond.endAtomIdx), (bond.endAtomIdx, bond.beginAtomIdx)])
  have edge_attr := mol.bonds.flatMap (fun bond =>
    have edge := (e_features.map (fun feat => feat.2 bond)).flatten
    [edge, edge])
  if edges.isEmpty then .error (.valueError "need at least one array to concatenate")
  else .ok (edges, edge_attr)

/-- The `PairData` object (data.py lines 211-249): two independent
single-sided graphs plus metadata attached after construction
(`reference_value`, `ID`, `x`, `pka_type`). -/
structure PairData where
  edge_index_p : List (Nat × Nat)
  edge_attr_p : List (List ℚ)
  x_p : List (List ℚ)
  charge_prot : Int
  edge_index_d : List (Nat × Nat)
  edge_attr_d : List (List ℚ)
  x_d : List (List ℚ)
  charge_deprot : Int
  num_nodes : Nat
  reference_value : List ℚ := []
  ID : String := ""
  x : ℚ := 0
  pka_type : PropVal := .str ""
deriving DecidableEq, Repr

/-- `PairData.__inc__(key, value)` (data.py lines 243-249): the batching
increment for each edge-index key; `none` models deferring to the
superclass implementation for every other key. -/
def PairData.inc (d : PairData) (key : String) : Option Nat :=
  if key = "edge_index_p" then some d.x_p.length
  else if key = "edge_index_d" then some d.x_d.length
  else none

/-- `mol_to_features(mol, atom_idx, n_features, e_features)` (data.py lines
371-401): node tensor, edge index, edge attributes and net formal charge;
the `ValueError` of the edge builder propagates uncaught. -/
def mol_to_features (mol : Mol) (atom_idx : Nat)
    (n_features : List (String × NodeFeatureFn)) (e_features : List (String × EdgeFeatureFn)) :
    Except PyError (List (List ℚ) × List (Nat × Nat) × List (List ℚ) × Int) :=
  have nodes := make_nodes mol atom_idx n_features
  match make_edges_and_attr mol e_features with
  | .error e => .error e
  | .ok ea =>
    have charge := (mol.atoms.map (fun a => a.formalCharge)).sum
    .ok (nodes, ea.1, ea.2, charge)

/-- `mol_to_paired_mol_data(prot, deprot, atom_idx, n_features, e_features)`
(data.py lines 404-431); feature-construction errors propagate uncaught. -/
def mol_to_paired_mol_data (prot deprot : Mol) (atom_idx : Nat)
    (n_features : List (String × NodeFeatureFn)) (e_features : List (String × EdgeFeatureFn)) :
    Except PyError PairData :=
  match mol_to_features prot atom_idx n_features e_features with
  | .error e => .error e
  | .ok fp =>
    match mol_to_features deprot atom_idx n_features e_features with
    | .error e => .error e
    | .ok fd =>
      .ok { edge_index_p := fp.2.1, edge_attr_p := fp.2.2.1, x_p := fp.1,
            charge_prot := fp.2.2.2
            edge_index_d := fd.2.1, edge_attr_d := fd.2.2.1, x_d := fd.1,
            charge_deprot := fd.2.2.2
            num_nodes := fp.1.length }

/-- One input row of the preprocessing DataFrame, restricted to the columns
`conjugates_to_dataframe` and `sort_conjugates` read. -/
structure PreRow where
  ROMol : Mol
  marvin_atom : Nat
  marvin_pKa : ℚ
deriving DecidableEq, Repr

/-- The loop body of `conjugates_to_dataframe` (data.py lines 112-125) at row
index `i`: on success the conjugate, on any exception the original molecule
together with the two printed diagnostic lines. -/
def conjRowResult (cc : CreateConjugate) (i : Nat) (row : PreRow) : Mol × List String :=
  match cc row.ROMol row.marvin_atom row.marvin_pKa true with
  | .ok conj => (conj, [])
  | .error e => (row.ROMol, ["Could not create conjugate of mol number " ++ toString i, e.msg])

/-- The indexed loop of `conjugates_to_dataframe` starting at row `i`. -/
def conjugatesLoop (cc : CreateConjugate) : Nat → List PreRow → List (PreRow × Mol) × List String
  | _, [] => ([], [])
  | i, r :: rs =>
    have hd := conjRowResult cc i r
    have rest := conjugatesLoop cc (i + 1) rs
    ((r, hd.1) :: rest.1, hd.2 ++ rest.2)

/-- `conjugates_to_dataframe(df)` (data.py lines 97-125): each row is paired
with its computed `Conjugates` entry; diagnostics of failed rows are
collected.  A failing row keeps the original molecule as its conjugate and
processing continues. -/
def conjugates_to_dataframe (cc : CreateConjugate) (rows : List PreRow) :
    List (PreRow × Mol) × List String :=
  conjugatesLoop cc 0 rows

/-- The per-row role assignment of `sort_conjugates` (data.py lines 147-167):
returns ((protonated, deprotonated), printed warnings). -/
def sortConjugatesRow (indx : Nat) (mol conj : Mol) : (Mol × Mol) × List String :=
  have charge_mol := getFormalCharge mol indx
  have charge_conj := getFormalCharge conj indx
  if charge_mol < charge_conj then ((conj, mol), [])
  else if charge_mol > charge_conj then ((mol, conj), [])
  else ((mol, conj), ["prot = deprot"])

/-- `sort_conjugates(df)` (data.py lines 128-171): per-row `protonated` /
`deprotonated` columns, plus the printed warnings. -/
def sort_conjugates (rows : List (PreRow × Mol)) : List (Mol × Mol) × List String :=
  (rows.map (fun rc => (sortConjugatesRow rc.1.marvin_atom rc.1.ROMol rc.2).1),
   (rows.map (fun rc => (sortConjugatesRow rc.1.marvin_atom rc.1.ROMol rc.2).2)).flatten)

/-- The inline role assignment of `make_paired_pyg_data_from_mol` (data.py
lines 533-541): `(prot, deprot) = (mol, conj)` when the original's charge at
the reaction center exceeds the conjugate's, else `(conj, mol)`. -/
def sortMolConj (mol conj : Mol) (atom_idx : Nat) : Mol × Mol :=
  if getFormalCharge mol atom_idx > getFormalCharge conj atom_idx then (mol, conj)
  else (conj, mol)

/-- The reaction-center lookup of `make_paired_pyg_data_from_mol` (data.py
lines 517-525): `epik_atom` first, then `marvin_atom`, else a bare
`RuntimeError()` after printing diagnostics that include the SMILES. -/
def lookupAtomIdx (mol : Mol) : Except (PyError × List String) Nat :=
  match List.lookup "epik_atom" mol.props with
  | some v => .ok v.toIdx
  | none =>
    match List.lookup "marvin_atom" mol.props with
    | some v => .ok v.toIdx
    | none => .error (.runtimeError "", ["No reaction center foundfor molecule", mol.smiles])

/-- `make_paired_pyg_data_from_mol(mol, ...)` (data.py lines 504-564), with
the external `create_conjugate` passed explicitly.  Errors carry the printed
diagnostic lines. -/
def make_paired_pyg_data_from_mol (cc : CreateConjugate) (mol : Mol)
    (selected_node_features : List (String × NodeFeatureFn))
    (selected_edge_features : List (String × EdgeFeatureFn)) :
    Except (PyError × List String) PairData :=
  have props := mol.props
  match List.lookup "pKa" props with
  | none => .error (.keyError "pKa", ["No pKa found for molecule", mol.smiles])
  | some pkaVal =>
    have pka := pkaVal.toQ
    match lookupAtomIdx mol with
    | .error e => .error e
    | .ok atom_idx =>
      match cc mol atom_idx pka false with
      | .error e => .error (e, ["mol is failing because: " ++ e.msg])
      | .ok conj =>
        have pd := sortMolConj mol conj atom_idx
        match mol_to_paired_mol_data pd.1 pd.2 atom_idx
          selected_node_features selected_edge_features with
        | .error e => .error (e, [])
        | .ok m =>
          have pkaType :=
            match List.lookup "pka_number" props with
            | some v => v
            | none =>
              match List.lookup "marvin_pKa_type" props with
              | some v => v
              | none => .str ""
          have idStr :=
            match List.lookup "ID" props with
            | some v => v.toStr
            | none => ""
          .ok { m with x := pka, pka_type := pkaType, ID := idStr }

/-- Concrete original molecule for the C1 counterexample: two bonded carbon
atoms, formal charge 0 everywhere, annotated with a pKa and a reaction
center. -/
def molC1 : Mol :=
  { atoms := [{ element := 6 }, { element := 6 }]
    bonds := [{ beginAtomIdx := 0, endAtomIdx := 1, bondType := 1 }]
    props := [("pKa", .num 7), ("epik_atom", .num 0)]
    smiles := "CC" }

/-- Concrete conjugate for the C1 counterexample: same formal charge at the
reaction center, same bond, but different (observable) elements. -/
def conjC1 : Mol :=
  { atoms := [{ element := 8 }, { element := 8 }]
    bonds := [{ beginAtomIdx := 0, endAtomIdx := 1, bondType := 1 }]
    smiles := "OO" }

/-- Conjugate generator for the C1 counterexample. -/
def ccC1 : CreateConjugate := fun _ _ _ _ => .ok conjC1

/-- Node feature selection for the C1 counterexample: the raw element. -/
def nfC1 : List (String × NodeFeatureFn) := [("element", fun a _ => [(a.element : ℚ)])]

/-- Concrete two-atom, one-bond molecule for the C3 witness. -/
def molC3 : Mol :=
  { atoms := [{}, {}], bonds := [{ beginAtomIdx := 0, endAtomIdx := 1 }], smiles := "CC" }

/-- Concrete edge-feature selection for the C3 witness. -/
def efC3 : List (String × EdgeFeatureFn) := [("bond_type", fun b => [(b.bondType : ℚ)])]

/-- Concrete node-feature vocabulary for the C4 witness: formal charge over
a three-value domain. -/
def vocabC4 : List (String × NodeFeatureEntry) :=
  [("formal_charge", ⟨[-1, 0, 1], fun a _ => (a.formalCharge : ℚ)⟩)]

/-- Concrete two-atom molecule for the C4 witness. -/
def molC4 : Mol := { atoms := [{ element := 6 }, { element := 8, formalCharge := -1 }] }

/-- Concrete molecule for the C5 witness: no `pKa` in the property bag. -/
def molC5 : Mol := { atoms := [{ element := 7 }], props := [("ID", .str "mol42")], smiles := "N" }

/-- Failing conjugate generator for the C6 witness. -/
def ccC6 : CreateConjugate := fun _ _ _ _ => .error (.assertionError "boom")

/-- Concrete input row for the C6 witness. -/
def rowC6 : PreRow := ⟨{ atoms := [{ element := 6 }], smiles := "C" }, 0, 7⟩

/-- Concrete molecule for the C8 witness: both accepted reaction-center
property names present, with different values. -/
def molC8 : Mol :=
  { props := [("epik_atom", .num 3), ("marvin_atom", .num 5)], smiles := "CO" }

theorem flatMap_two_length {α β : Type} (l : List α) (f g : α → β) :
    (l.flatMap (fun a => [f a, g a])).length = 2 * l.length := by
  induction l with
  | nil => rfl
  | cons a t ih =>
    simp only [List.flatMap_cons, List.length_append, List.length_cons, List.length_nil, ih]
    omega

theorem flatMap_two_getElem {α β : Type} (l : List α) (f g : α → β) (k : Nat)
    (hk : k < l.length) :
    (l.flatMap (fun a => [f a, g a]))[2 * k]? = (l[k]?).map f ∧
    (l.flatMap (fun a => [f a, g a]))[2 * k + 1]? = (l[k]?).map g := by
  induction l generalizing k with
  | nil => simp at hk
  | cons a t ih =>
    cases k with
    | zero => simp [List.flatMap_cons]
    | succ k =>
      have hk' : k < t.length := by
        simpa [Nat.succ_lt_succ_iff] using hk
      have h2 : 2 * (k + 1) = 2 * k + 1 + 1 := by ring
      have h3 : 2 * (k + 1) + 1 = (2 * k + 1 + 1) + 1 := by ring
      constructor
      · rw [h2]
        simpa [List.flatMap_cons] using (ih k hk').1
      · rw [h3]
        simpa [List.flatMap_cons] using (ih k hk').2

theorem lookup_map_snd {β γ : Type} (l : List (String × β)) (F : β → γ) (x : String) :
    List.lookup x (l.map (fun p => (p.1, F p.2))) = (List.lookup x l).map F := by
  induction l with
  | nil => rfl
  | cons p t ih =>
    by_cases h : x == p.1
    · simp [List.lookup, h]
    · simp [List.lookup, h, ih]

theorem foldl_add_eq_sum_map {α : Type} (l : List α) (f : α → Nat) (n : Nat) :
    l.foldl (fun s a => s + f a) n = n + (l.map f).sum := by
  induction l generalizing n with
  | nil => simp
  | cons a t ih =>
    simp only [List.foldl_cons, List.map_cons, List.sum_cons, ih]
    omega

theorem calc_nr_all_node (nv ev : List (String × List ℚ)) (fl : List String)
    (hall : ∀ a ∈ fl, (List.lookup a nv).isSome = true) :
    calculate_nr_of_features nv ev fl
      = .ok ((fl.map (fun a => ((List.lookup a nv).getD []).length)).sum) := by
  have hAllN : fl.all (fun elem => (List.lookup elem nv).isSome) = true := by
    rw [List.all_eq_true]
    intro a ha
    exact hall a ha
  simp only [calculate_nr_of_features, hAllN, if_true]
  rw [foldl_add_eq_sum_map]
  simp

theorem conjugatesLoop_length (cc : CreateConjugate) (n : Nat) (rows : List PreRow) :
    (conjugatesLoop cc n rows).1.length = rows.length := by
  induction rows generalizing n with
  | nil => rfl
  | cons r rs ih => simp [conjugatesLoop, ih]

theorem conjugatesLoop_getElem (cc : CreateConjugate) (n i : Nat) (rows : List PreRow) :
    (conjugatesLoop cc n rows).1[i]?
      = (rows[i]?).map (fun r => (r, (conjRowResult cc (n + i) r).1)) := by
  induction rows generalizing n i with
  | nil => simp [conjugatesLoop]
  | cons r rs ih =>
    cases i with
    | zero => simp [conjugatesLoop]
    | succ i =>
      have h := ih (n + 1) i
      have hn : n + 1 + i = n + (i + 1) := by omega
      rw [hn] at h
      simp only [conjugatesLoop, List.getElem?_cons_succ]
      exact h

theorem conjugatesLoop_log_mem (cc : CreateConjugate) (n i : Nat) (rows : List PreRow)
    (r : PreRow) (hr : rows[i]? = some r) (s : String)
    (hs : s ∈ (conjRowResult cc (n + i) r).2) :
    s ∈ (conjugatesLoop cc n rows).2 := by
  induction rows generalizing n i with
  | nil => simp at hr
  | cons r0 rs ih =>
    cases i with
    | zero =>
      simp only [List.getElem?_cons_zero, Option.some.injEq] at hr
      subst hr
      simp only [conjugatesLoop, List.mem_append]
      exact Or.inl hs
    | succ i =>
      simp only [List.getElem?_cons_succ] at hr
      simp only [conjugatesLoop, List.mem_append]
      refine Or.inr (ih (n + 1) i hr ?_)
      have hn : n + 1 + i = n + (i + 1) := by omega
      rw [hn]
      exact hs

theorem sortConjugatesRow_self (indx : Nat) (m : Mol) :
    sortConjugatesRow indx m m = ((m, m), ["prot = deprot"]) := by
  simp [sortConjugatesRow]

theorem dictKeys_of_nodup (l : List String) (h : l.Nodup) : dictKeys l = l := by
  induction l with
  | nil => rfl
  | cons x xs ih =>
    rw [dictKeys, ih (List.Nodup.of_cons h)]
    have hfix : xs.filter (fun y => y != x) = xs := by
      apply List.filter_eq_self.mpr
      intro a ha
      have hne : a ≠ x := by
        intro heq
        subst heq
        exact (List.nodup_cons.mp h).1 ha
      simpa using hne
    rw [hfix]

theorem make_edges_and_attr_ok (mol : Mol) (e_features : List (String × EdgeFeatureFn))
    (hb : mol.bonds ≠ []) :
    make_edges_and_attr mol e_features = .ok
      (mol.bonds.flatMap (fun bond =>
        [(bond.beginAtomIdx, bond.endAtomIdx), (bond.endAtomIdx, bond.beginAtomIdx)]),
       mol.bonds.flatMap (fun bond =>
        [(e_features.map (fun feat => feat.2 bond)).flatten,
         (e_features.map (fun feat => feat.2 bond)).flatten])) := by
  obtain ⟨b, bs, hmb⟩ : ∃ b bs, mol.bonds = b :: bs := by
    cases hmb : mol.bonds with
    | nil => exact absurd hmb hb
    | cons b bs => exact ⟨b, bs, rfl⟩
  simp [make_edges_and_attr, hmb]

/-- Claim C2: for every `PairData`, the batching increment for
`edge_index_p` equals the row count of the protonated node-feature matrix
`x_p`, and the increment for `edge_index_d` equals the row count of `x_d`;
each side's offset is derived from its own node matrix alone, so the two
sides never share an offset counter. -/
theorem C2_pairdata_inc (d : PairData) :
    d.inc "edge_index_p" = some d.x_p.length ∧
    d.inc "edge_index_d" = some d.x_d.length := by
  exact ⟨rfl, by simp [PairData.inc]⟩

/-- Claim C3: for every molecule and edge-feature selection, the edge
builder (which succeeds exactly when the molecule has a bond) emits exactly
two directed edges per bond, consecutively in bond iteration order: for
bond `k`, edge-index column `2k` is (begin, end), column `2k+1` is its
reverse (end, begin), and the edge-attribute rows `2k` and `2k+1` are
identical (and present). -/
theorem C3_edges (mol : Mol) (e_features : List (String × EdgeFeatureFn)) (k : Nat)
    (hk : k < mol.bonds.length) :
    ∃ ei ea, make_edges_and_attr mol e_features = .ok (ei, ea) ∧
      ei.length = 2 * mol.bonds.length ∧
      ea.length = 2 * mol.bonds.length ∧
      (∃ b, mol.bonds[k]? = some b ∧
        ei[2 * k]? = some (b.beginAtomIdx, b.endAtomIdx) ∧
        ei[2 * k + 1]? = some (b.endAtomIdx, b.beginAtomIdx)) ∧
      (ea[2 * k]?).isSome ∧ ea[2 * k]? = ea[2 * k + 1]? := by
  have hbne : mol.bonds ≠ [] := by
    intro hnil
    rw [hnil] at hk
    simp at hk
  obtain ⟨b, hb⟩ : ∃ b, mol.bonds[k]? = some b := by
    simp [List.getElem?_eq_getElem hk]
  have hidx := flatMap_two_getElem mol.bonds
    (fun bond => (bond.beginAtomIdx, bond.endAtomIdx))
    (fun bond => (bond.endAtomIdx, bond.beginAtomIdx)) k hk
  have hattr := flatMap_two_getElem mol.bonds
    (fun bond => ((e_features.map (fun feat => feat.2 bond)).flatten))
    (fun bond => ((e_features.map (fun feat => feat.2 bond)).flatten)) k hk
  refine ⟨_, _, make_edges_and_attr_ok mol e_features hbne,
    flatMap_two_length _ _ _, flatMap_two_length _ _ _, ⟨b, hb, ?_, ?_⟩, ?_, ?_⟩
  · rw [hidx.1, hb]
    rfl
  · rw [hidx.2, hb]
    rfl
  · rw [hattr.1, hb]
    rfl
  · rw [hattr.1, hattr.2]

/-- Witness for C3 at a concrete two-atom, one-bond molecule with one
edge feature. -/
theorem C3_edges_witness :
    0 < molC3.bonds.length ∧
    ∃ ei ea, make_edges_and_attr molC3 efC3 = .ok (ei, ea) ∧
      ei.length = 2 * molC3.bonds.length ∧
      ea.length = 2 * molC3.bonds.length ∧
      (∃ b, molC3.bonds[0]? = some b ∧
        ei[2 * 0]? = some (b.beginAtomIdx, b.endAtomIdx) ∧
        ei[2 * 0 + 1]? = some (b.endAtomIdx, b.beginAtomIdx)) ∧
      (ea[2 * 0]?).isSome ∧ ea[2 * 0]? = ea[2 * 0 + 1]? :=
  ⟨by decide, C3_edges molC3 efC3 0 (by decide)⟩

/-- Claim C10: the feature-width computation on the empty selection returns
0 and raises no error, for any node and edge vocabularies. -/
theorem C10_empty_selection (node_feat_values edge_feat_values : List (String × List ℚ)) :
    calculate_nr_of_features node_feat_values edge_feat_values [] = .ok 0 := rfl

/-- Claim C7: the feature-width computation errors when the selection mixes
node-only and edge-only names, or contains a name unknown to both
vocabularies; otherwise it returns the sum of the selected features'
value-domain sizes (looked up in the node vocabulary when every name is a
node name, else in the edge vocabulary). -/
theorem C7_feature_width (nv ev : List (String × List ℚ)) (fl : List String) :
    ((∃ a ∈ fl, (List.lookup a nv).isSome ∧ List.lookup a ev = none) →
     (∃ b ∈ fl, (List.lookup b ev).isSome ∧ List.lookup b nv = none) →
       calculate_nr_of_features nv ev fl = .error (.runtimeError "")) ∧
    ((∃ a ∈ fl, List.lookup a nv = none ∧ List.lookup a ev = none) →
       calculate_nr_of_features nv ev fl = .error (.runtimeError "")) ∧
    ((∀ a ∈ fl, (List.lookup a nv).isSome) →
       calculate_nr_of_features nv ev fl =
         .ok ((fl.map (fun a => ((List.lookup a nv).getD []).length)).sum)) ∧
    ((∃ a ∈ fl, List.lookup a nv = none) → (∀ a ∈ fl, (List.lookup a ev).isSome) →
       calculate_nr_of_features nv ev fl =
         .ok ((fl.map (fun a => ((List.lookup a ev).getD []).length)).sum)) := by
  refine ⟨?_, ?_, ?_, ?_⟩
  · rintro ⟨a, hamem, han, hae⟩ ⟨b, hbmem, hbe, hbn⟩
    have hAllN : fl.all (fun elem => (List.lookup elem nv).isSome) = false := by
      rw [List.all_eq_false]
      exact ⟨b, hbmem, by simp [hbn]⟩
    have hAllE : fl.all (fun elem => (List.lookup elem ev).isSome) = false := by
      rw [List.all_eq_false]
      exact ⟨a, hamem, by simp [hae]⟩
    simp [calculate_nr_of_features, hAllN, hAllE]
  · rintro ⟨a, hamem, han, hae⟩
    have hAllN : fl.all (fun elem => (List.lookup elem nv).isSome) = false := by
      rw [List.all_eq_false]
      exact ⟨a, hamem, by simp [han]⟩
    have hAllE : fl.all (fun elem => (List.lookup elem ev).isSome) = false := by
      rw [List.all_eq_false]
      exact ⟨a, hamem, by simp [hae]⟩
    simp [calculate_nr_of_features, hAllN, hAllE]
  · intro hall
    exact calc_nr_all_node nv ev fl hall
  · rintro ⟨a, hamem, han⟩ hall
    have hAllN : fl.all (fun elem => (List.lookup elem nv).isSome) = false := by
      rw [List.all_eq_false]
      exact ⟨a, hamem, by simp [han]⟩
    have hAllE : fl.all (fun elem => (List.lookup elem ev).isSome) = true := by
      rw [List.all_eq_true]
      intro b hb
      exact hall b hb
    simp only [calculate_nr_of_features, hAllN, hAllE, if_true, Bool.false_eq_true,
      if_false]
    rw [foldl_add_eq_sum_map]
    simp

/-- Witness for C7: a selection containing a name unknown to both
vocabularies is rejected with the bare `RuntimeError`. -/
theorem C7_feature_width_witness :
    calculate_nr_of_features [("element", [(0 : ℚ), 1])] [("bond_type", [(0 : ℚ)])]
      ["element", "mystery"] = .error (.runtimeError "") :=
  (C7_feature_width [("element", [(0 : ℚ), 1])] [("bond_type", [(0 : ℚ)])]
    ["element", "mystery"]).2.1 ⟨"mystery", by decide, by decide, by decide⟩

/-- Claim C4 (amended): for every molecule, reaction-center index and
duplicate-free node-feature selection whose names all exist in the node
vocabulary, the node builder returns one row per atom, row `i` coming from
atom `i` in the molecule's native order, and every row's length equals the
feature width computed by `calculate_nr_of_features` for that selection —
the sum of the selected features' value-domain sizes.  (For a selection with
a repeated name the two sides disagree: the feature dict dedupes the name,
so the rows carry it once, while the width computation counts every list
occurrence — see the counterexample.) -/
theorem C4_nodes (mol : Mol) (atom_idx : Nat) (vocab : List (String × NodeFeatureEntry))
    (edge_feat_values : List (String × List ℚ)) (sel : List String)
    (hnd : sel.Nodup) (h : ∀ x ∈ sel, (List.lookup x vocab).isSome) :
    (make_nodes mol atom_idx (make_features_dicts (featureFnsOf vocab) sel)).length
      = mol.atoms.length ∧
    (∀ i : Nat, (make_nodes mol atom_idx (make_features_dicts (featureFnsOf vocab) sel))[i]?
       = (mol.atoms[i]?).map (fun atom =>
           ((make_features_dicts (featureFnsOf vocab) sel).map
             (fun feat => feat.2 atom atom_idx)).flatten)) ∧
    calculate_nr_of_features (featValuesOf vocab) edge_feat_values sel
      = .ok ((sel.map (fun x => ((List.lookup x vocab).getD default).domain.length)).sum) ∧
    (∀ row ∈ make_nodes mol atom_idx (make_features_dicts (featureFnsOf vocab) sel),
       row.length
         = (sel.map (fun x => ((List.lookup x vocab).getD default).domain.length)).sum) := by
  have hlookupFns : ∀ x : String,
      List.lookup x (featureFnsOf vocab) = (List.lookup x vocab).map nodeFeatureFn := by
    intro x
    exact lookup_map_snd vocab nodeFeatureFn x
  have hlookupVals : ∀ x : String,
      List.lookup x (featValuesOf vocab)
        = (List.lookup x vocab).map (fun e => e.domain) := by
    intro x
    exact lookup_map_snd vocab (fun e => e.domain) x
  refine ⟨List.length_map _ _, ?_, ?_, ?_⟩
  · intro i
    exact List.getElem?_map ..
  · have hall : ∀ a ∈ sel, (List.lookup a (featValuesOf vocab)).isSome = true := by
      intro a ha
      rw [hlookupVals a]
      obtain ⟨e, he⟩ := Option.isSome_iff_exists.mp (h a ha)
      simp [he]
    rw [calc_nr_all_node (featValuesOf vocab) edge_feat_values sel hall]
    refine congrArg (fun n => Except.ok n) (congrArg List.sum (List.map_congr_left ?_))
    intro a ha
    obtain ⟨e, he⟩ := Option.isSome_iff_exists.mp (h a ha)
    rw [hlookupVals a, he]
    simp
  · intro row hrow
    obtain ⟨atom, _, hatom⟩ := List.mem_map.mp hrow
    subst hatom
    have hmfd : make_features_dicts (featureFnsOf vocab) sel
        = sel.map (fun x => (x, (List.lookup x (featureFnsOf vocab)).getD default)) := by
      unfold make_features_dicts
      rw [dictKeys_of_nodup sel hnd]
    rw [List.length_flatten, List.map_map, hmfd, List.map_map]
    refine congrArg List.sum (List.map_congr_left ?_)
    intro a ha
    obtain ⟨e, he⟩ := Option.isSome_iff_exists.mp (h a ha)
    simp only [Function.comp_apply]
    rw [hlookupFns a, he]
    simp [nodeFeatureFn, oneHotEncode]

/-- Claim C1 (amended): both role-assignment paths compare formal charge at
the reaction-center index, and agree whenever the two charges differ:
strictly smaller original charge makes the conjugate the protonated form,
strictly larger makes the original the protonated form.  When the charges
are equal the two paths differ: the dataframe path (`sort_conjugates`)
prints the warning and defaults to protonated = original, deprotonated =
conjugate, while the single-molecule ingestion path
(`make_paired_pyg_data_from_mol`) assigns protonated = conjugate,
deprotonated = original and prints no warning. -/
theorem C1_role_assignment (indx : Nat) (mol conj : Mol) :
    (sortConjugatesRow indx mol conj =
      if getFormalCharge mol indx < getFormalCharge conj indx then ((conj, mol), [])
      else if getFormalCharge conj indx < getFormalCharge mol indx then ((mol, conj), [])
      else ((mol, conj), ["prot = deprot"])) ∧
    (sortMolConj mol conj indx =
      if getFormalCharge conj indx < getFormalCharge mol indx then (mol, conj)
      else (conj, mol)) ∧
    (getFormalCharge mol indx ≠ getFormalCharge conj indx →
      sortMolConj mol conj indx = (sortConjugatesRow indx mol conj).1) ∧
    (getFormalCharge mol indx = getFormalCharge conj indx →
      sortConjugatesRow indx mol conj = ((mol, conj), ["prot = deprot"]) ∧
      sortMolConj mol conj indx = (conj, mol)) := by
  rcases lt_trichotomy (getFormalCharge mol indx) (getFormalCharge conj indx) with h | h | h
  · refine ⟨?_, ?_, ?_, ?_⟩
    · simp [sortConjugatesRow, h]
    · simp [sortMolConj, gt_iff_lt, asymm h]
    · intro _
      simp [sortConjugatesRow, sortMolConj, h, gt_iff_lt, asymm h]
    · intro heq
      exact absurd heq (ne_of_lt h)
  · refine ⟨?_, ?_, ?_, ?_⟩
    · simp [sortConjugatesRow, h]
    · simp [sortMolConj, gt_iff_lt, h]
    · intro hne
      exact absurd h hne
    · intro _
      constructor
      · simp [sortConjugatesRow, h]
      · simp [sortMolConj, gt_iff_lt, h]
  · refine ⟨?_, ?_, ?_, ?_⟩
    · simp [sortConjugatesRow, h, asymm h]
    · simp [sortMolConj, gt_iff_lt, h]
    · intro _
      simp [sortConjugatesRow, sortMolConj, h, gt_iff_lt, asymm h]
    · intro heq
      exact absurd heq (ne_of_gt h)

/-- Witness for C1 at a concrete equal-charge pair: the dataframe path warns
and keeps the original as protonated, the single-molecule path returns the
conjugate as protonated. -/
theorem C1_role_assignment_witness :
    getFormalCharge (Mol.mk [{ element := 6 }] [] [] "C") 0
      = getFormalCharge (Mol.mk [{ element := 8 }] [] [] "O") 0 ∧
    sortConjugatesRow 0 (Mol.mk [{ element := 6 }] [] [] "C") (Mol.mk [{ element := 8 }] [] [] "O")
      = ((Mol.mk [{ element := 6 }] [] [] "C", Mol.mk [{ element := 8 }] [] [] "O"),
         ["prot = deprot"]) ∧
    sortMolConj (Mol.mk [{ element := 6 }] [] [] "C") (Mol.mk [{ element := 8 }] [] [] "O") 0
      = (Mol.mk [{ element := 8 }] [] [] "O", Mol.mk [{ element := 6 }] [] [] "C") := by
  have h := (C1_role_assignment 0 (Mol.mk [{ element := 6 }] [] [] "C")
    (Mol.mk [{ element := 8 }] [] [] "O")).2.2.2 rfl
  exact ⟨rfl, h.1, h.2⟩

/-- Counterexample to C1 as stated: in the single-molecule ingestion path,
with equal formal charge at the reaction center, the protonated slot of the
produced `PairData` holds the conjugate (and the deprotonated slot the
original), not the claimed protonated = original default, and no warning is
emitted (the error-free result carries no log). -/
theorem C1_counterexample :
    getFormalCharge molC1 0 = getFormalCharge conjC1 0 ∧
    ∃ pd, make_paired_pyg_data_from_mol ccC1 molC1 nfC1 [] = .ok pd ∧
      pd.x_p = make_nodes conjC1 0 nfC1 ∧
      pd.x_d = make_nodes molC1 0 nfC1 ∧
      make_nodes conjC1 0 nfC1 ≠ make_nodes molC1 0 nfC1 := by
  refine ⟨rfl, _, rfl, rfl, rfl, ?_⟩
  decide

/-- Claim C5: the single-annotated-molecule entry point, applied to a
molecule whose property bag lacks the `pKa` property, fails with the
`KeyError` for that key, and the emitted diagnostics include the molecule's
canonical SMILES identifier. -/
theorem C5_missing_pka (cc : CreateConjugate) (mol : Mol)
    (nf : List (String × NodeFeatureFn)) (ef : List (String × EdgeFeatureFn))
    (h : List.lookup "pKa" mol.props = none) :
    ∃ log, make_paired_pyg_data_from_mol cc mol nf ef = .error (.keyError "pKa", log) ∧
      mol.smiles ∈ log := by
  refine ⟨["No pKa found for molecule", mol.smiles], ?_, by simp⟩
  simp [make_paired_pyg_data_from_mol, h]

/-- Witness for C5 at a concrete annotated molecule lacking `pKa`. -/
theorem C5_missing_pka_witness :
    ∃ log, make_paired_pyg_data_from_mol (fun m _ _ _ => .ok m) molC5 [] []
        = .error (.keyError "pKa", log) ∧ molC5.smiles ∈ log :=
  C5_missing_pka (fun m _ _ _ => .ok m) molC5 [] [] rfl

/-- Claim C8: the single-annotated-molecule entry point resolves the
reaction-center index by trying `epik_atom` first, then `marvin_atom`
(first match wins), and raises a `RuntimeError` when neither property is
present; with `pKa` present but neither index property, the whole entry
point fails with that error. -/
theorem C8_atom_idx_resolution (mol : Mol) :
    (∀ v, List.lookup "epik_atom" mol.props = some v → lookupAtomIdx mol = .ok v.toIdx) ∧
    (List.lookup "epik_atom" mol.props = none →
      ∀ v, List.lookup "marvin_atom" mol.props = some v → lookupAtomIdx mol = .ok v.toIdx) ∧
    (List.lookup "epik_atom" mol.props = none → List.lookup "marvin_atom" mol.props = none →
      ∃ log, lookupAtomIdx mol = .error (.runtimeError "", log) ∧ mol.smiles ∈ log) ∧
    (∀ (cc : CreateConjugate) (nf : List (String × NodeFeatureFn))
       (ef : List (String × EdgeFeatureFn)) (v : PropVal),
      List.lookup "pKa" mol.props = some v →
      List.lookup "epik_atom" mol.props = none → List.lookup "marvin_atom" mol.props = none →
      ∃ log, make_paired_pyg_data_from_mol cc mol nf ef = .error (.runtimeError "", log)) := by
  refine ⟨?_, ?_, ?_, ?_⟩
  · intro v hv
    simp [lookupAtomIdx, hv]
  · intro h1 v hv
    simp [lookupAtomIdx, h1, hv]
  · intro h1 h2
    refine ⟨["No reaction center foundfor molecule", mol.smiles], ?_, by simp⟩
    simp [lookupAtomIdx, h1, h2]
  · intro cc nf ef v hv h1 h2
    refine ⟨["No reaction center foundfor molecule", mol.smiles], ?_⟩
    simp [make_paired_pyg_data_from_mol, hv, lookupAtomIdx, h1, h2]

/-- Witness for C8: with both property names present, the primary
`epik_atom` value wins. -/
theorem C8_atom_idx_resolution_witness : lookupAtomIdx molC8 = .ok 3 := by
  have h := (C8_atom_idx_resolution molC8).1 (.num 3) rfl
  rw [show (PropVal.num 3).toIdx = 3 by decide] at h
  exact h

/-- Claim C6: in the dataset-wide batch path, a row whose conjugate
generation fails is logged with the row index and the underlying message,
keeps the original unmodified molecule as its conjugate, and processing
continues with every row; after `sort_conjugates` both the protonated and
the deprotonated column of that row hold the original molecule. -/
theorem C6_conjugate_failure (cc : CreateConjugate) (rows : List PreRow) (i : Nat)
    (r : PreRow) (e : PyError) (hr : rows[i]? = some r)
    (he : cc r.ROMol r.marvin_atom r.marvin_pKa true = .error e) :
    (conjugates_to_dataframe cc rows).1.length = rows.length ∧
    (conjugates_to_dataframe cc rows).1[i]? = some (r, r.ROMol) ∧
    ("Could not create conjugate of mol number " ++ toString i)
      ∈ (conjugates_to_dataframe cc rows).2 ∧
    e.msg ∈ (conjugates_to_dataframe cc rows).2 ∧
    (sort_conjugates (conjugates_to_dataframe cc rows).1).1[i]?
      = some (r.ROMol, r.ROMol) := by
  have hres : conjRowResult cc i r
      = (r.ROMol, ["Could not create conjugate of mol number " ++ toString i, e.msg]) := by
    simp [conjRowResult, he]
  have hget : (conjugates_to_dataframe cc rows).1[i]? = some (r, r.ROMol) := by
    rw [conjugates_to_dataframe, conjugatesLoop_getElem cc 0 i rows, hr]
    simp [Nat.zero_add, hres]
  refine ⟨conjugatesLoop_length cc 0 rows, hget, ?_, ?_, ?_⟩
  · refine conjugatesLoop_log_mem cc 0 i rows r hr _ ?_
    rw [Nat.zero_add, hres]
    simp
  · refine conjugatesLoop_log_mem cc 0 i rows r hr _ ?_
    rw [Nat.zero_add, hres]
    simp
  · rw [sort_conjugates, List.getElem?_map, hget]
    simp [sortConjugatesRow_self]

/-- Witness for C6 at a one-row table whose conjugate generation fails. -/
theorem C6_conjugate_failure_witness :
    (conjugates_to_dataframe ccC6 [rowC6]).1.length = 1 ∧
    (conjugates_to_dataframe ccC6 [rowC6]).1[0]? = some (rowC6, rowC6.ROMol) ∧
    ("Could not create conjugate of mol number " ++ toString 0)
      ∈ (conjugates_to_dataframe ccC6 [rowC6]).2 ∧
    (PyError.assertionError "boom").msg ∈ (conjugates_to_dataframe ccC6 [rowC6]).2 ∧
    (sort_conjugates (conjugates_to_dataframe ccC6 [rowC6]).1).1[0]?
      = some (rowC6.ROMol, rowC6.ROMol) :=
  C6_conjugate_failure ccC6 [rowC6] 0 rowC6 (.assertionError "boom") rfl rfl

/-- Counterexample to C4 as stated: for the duplicated selection
`["formal_charge", "formal_charge"]` the width computation returns 6 (the
list sum counts the repeated name twice) while every row produced by the
node builder has length 3 (the dict comprehension collapses the repeated
name), so the claimed equality of column count and computed feature width
fails on this valid input. -/
theorem C4_counterexample :
    calculate_nr_of_features (featValuesOf vocabC4) [] ["formal_charge", "formal_charge"]
      = .ok 6 ∧
    (make_nodes molC4 0 (make_features_dicts (featureFnsOf vocabC4)
        ["formal_charge", "formal_charge"])).length = molC4.atoms.length ∧
    (∀ row ∈ make_nodes molC4 0 (make_features_dicts (featureFnsOf vocabC4)
        ["formal_charge", "formal_charge"]), row.length = 3) ∧
    (3 : Nat) ≠ 6 := by
  refine ⟨rfl, rfl, ?_, by decide⟩
  decide

/-- Witness for C4 at a concrete molecule and one-feature selection. -/
theorem C4_nodes_witness :
    (make_nodes molC4 0 (make_features_dicts (featureFnsOf vocabC4) ["formal_charge"])).length
      = molC4.atoms.length ∧
    calculate_nr_of_features (featValuesOf vocabC4) [] ["formal_charge"]
      = .ok ((["formal_charge"].map
          (fun x => ((List.lookup x vocabC4).getD default).domain.length)).sum) := by
  have hnd : (["formal_charge"] : List String).Nodup := by simp
  have h : ∀ x ∈ ["formal_charge"], (List.lookup x vocabC4).isSome := by
    intro x hx
    simp only [List.mem_singleton] at hx
    subst hx
    rfl
  exact ⟨(C4_nodes molC4 0 vocabC4 [] ["formal_charge"] hnd h).1,
         (C4_nodes molC4 0 vocabC4 [] ["formal_charge"] hnd h).2.2.1⟩

end Pkasolver
